import Mathlib

/-!
A shallow embedding of the comport crate (USB-COM device plug-event
tracking) and proofs about it.

Source layout embedded here:
- src/src/hkey.rs   : PortMeta, parse_registry, scan errors
- src/src/lib.rs    : listen, prelude (Unplugged, TrackedPort, Tracking,
                      DeviceStreamExt::track)
- src/src/wm.rs     : Registry::spawn, SharedQueue, WindowEvents::close,
                      the window procedure and message-loop dispatcher

The crate declares a module src/src/event.rs (the Wait Bridge: Event,
oneshot, Sender, Receiver, WaitResult) that is not present in the source
tree; only its tests and callers are.  Definitions for that module are
modelled from the spec and say so in their doc comments.
-/

namespace Comport

/-- Port identifier (OsString in the source, e.g. "COM4"). -/
abbrev PortId := String

/-- PortMeta from src/src/hkey.rs: vendor/product id strings. -/
structure PortMeta where
  vendor : String
  product : String
deriving DecidableEq, Repr

/-- An io::Error, modelled by its message text. -/
structure IoError where
  msg : String
deriving DecidableEq, Repr

/-- RegistryError from src/src/hkey.rs (the ScanResult error type). -/
inductive RegistryError where
  | UnexpectedRegistryData (expect actual : Nat)
  | Io (e : IoError)
  | UnableToParseRegistryData (s : String)
  | ComPortMissingFromRegistry (port : String)
deriving DecidableEq, Repr

/-- PlugEvent from src/src/wm.rs. -/
inductive PlugEvent where
  | Arrival (port : PortId) (meta : PortMeta)
  | RemoveComplete (port : PortId)
deriving DecidableEq, Repr

/-- ScanResult from src/src/hkey.rs. -/
abbrev ScanResult (T : Type) := Except RegistryError T

/-- Modelled from the spec: the Wait Bridge module (src/src/event.rs) is
absent from the source tree.  A Sender half of a OneshotChannel wraps a
dedicated auto-reset kernel signal; we model the handle as an opaque id. -/
abbrev Sender := Nat

/-- Modelled from the spec: the Receiver half of a OneshotChannel
(src/src/event.rs is absent); an opaque handle id. -/
abbrev Receiver := Nat

/-- Modelled from the spec: WaitResult of the Wait Bridge — a completed
wait reports Signaled or TimedOut. -/
inductive WaitResult where
  | Signaled
  | TimedOut
deriving DecidableEq, Repr

/-- Unplugged from src/src/lib.rs (prelude): a future wrapping the
oneshot Receiver; replaced by Complete once it has resolved. -/
inductive Unplugged where
  | Waiting (inner : Receiver)
  | Complete
deriving DecidableEq, Repr

/-- Result of one poll of the Unplugged future.  Panic models the
explicit panic in the source for polling after completion. -/
inductive UPoll where
  | Pending
  | Ready (r : WaitResult)
  | Panic
deriving DecidableEq, Repr

/-- Unplugged::poll from src/src/lib.rs.  The environment argument
recvRes is the underlying Receiver's state at this poll: none when the
oneshot wait is still pending, some r when it completes with r.
Waiting with a ready inner resolves and project-replaces the state with
Complete; polling Complete panics. -/
def Unplugged.poll (recvRes : Option WaitResult) :
    Unplugged → Unplugged × UPoll
  | Unplugged.Waiting inner =>
    match recvRes with
    | none => (Unplugged.Waiting inner, UPoll.Pending)
    | some r => (Unplugged.Complete, UPoll.Ready r)
  | Unplugged.Complete => (Unplugged.Complete, UPoll.Panic)

/-- TrackedPort from src/src/lib.rs (prelude). -/
structure TrackedPort where
  port : PortId
  ids : PortMeta
  unplugged : Unplugged
deriving DecidableEq, Repr

/-- TrackedPort::track from src/src/lib.rs: creates a oneshot channel
and pairs its Sender with a TrackedPort holding the Receiver.  The
outcome of event::oneshot() (modelled from the spec, src/src/event.rs
being absent: allocation of the dedicated auto-reset signal may fail
with an OS error) is passed in as oneshotRes. -/
def TrackedPort.track (oneshotRes : Except IoError (Sender × Receiver))
    (port : PortId) (ids : PortMeta) : Except IoError (Sender × TrackedPort) :=
  match oneshotRes with
  | Except.error e => Except.error e
  | Except.ok (sender, receiver) =>
    Except.ok (sender, { port := port, ids := ids,
                         unplugged := Unplugged.Waiting receiver })

/-- TrackingError from src/src/lib.rs (prelude). -/
inductive TrackingError where
  | Io (e : IoError)
  | Scan (e : RegistryError)
deriving DecidableEq, Repr

/-- The tracking cache: HashMap of OsString to Sender from
src/src/lib.rs, modelled as an association list whose insert replaces
any existing binding for the key. -/
abbrev Cache := List (PortId × Sender)

/-- HashMap::insert on the cache: binds k to v, replacing any prior
binding of k (at most one binding per key results for k). -/
def cacheInsert (cache : Cache) (k : PortId) (v : Sender) : Cache :=
  (k, v) :: cache.filter (fun p => p.1 ≠ k)

/-- HashMap::remove on the cache: returns the removed Sender (if any)
and the cache without any binding of k. -/
def cacheRemove (cache : Cache) (k : PortId) : Option Sender × Cache :=
  ((cache.find? (fun p => p.1 = k)).map Prod.snd,
   cache.filter (fun p => p.1 ≠ k))

/-- Tracking from src/src/lib.rs (prelude), with the inner stream
factored out (upstream items are fed to the step function below). -/
inductive Tracking where
  | Streaming (ids : List PortMeta) (cache : Cache)
  | Complete
deriving DecidableEq, Repr

/-- Decidable equality for Except, used to evaluate step results on
concrete inputs. -/
instance {e a : Type} [DecidableEq e] [DecidableEq a] :
    DecidableEq (Except e a) := fun x y =>
  match x, y with
  | Except.ok u, Except.ok v => decidable_of_iff (u = v) (by simp)
  | Except.error u, Except.error v => decidable_of_iff (u = v) (by simp)
  | Except.ok _, Except.error _ => isFalse (fun h => Except.noConfusion h)
  | Except.error _, Except.ok _ => isFalse (fun h => Except.noConfusion h)

/-- What one upstream item produces from Tracking::poll_next.
Item models break Poll::Ready(Some(r)); Finished models
break Poll::Ready(None); Continue models the loop continuing to the
next upstream item without emitting anything; Panic models the explicit
panic on polling the Complete state. -/
inductive TPoll where
  | Item (r : Except TrackingError TrackedPort)
  | Finished
  | Continue
  | Panic
deriving DecidableEq, Repr

/-- One iteration of the loop in Tracking::poll_next
(src/src/lib.rs), processing a single upstream item
(none = upstream end-of-stream, some = an upstream ScanResult item).
Environment arguments: oneshotRes is the outcome of event::oneshot()
should it be called, setRes gives the outcome of Sender::set() on a
given sender (both modelled from the spec, src/src/event.rs being
absent). -/
def Tracking.step (oneshotRes : Except IoError (Sender × Receiver))
    (setRes : Sender → Except IoError Unit) :
    Tracking → Option (ScanResult PlugEvent) → Tracking × TPoll
  | Tracking.Complete, _ => (Tracking.Complete, TPoll.Panic)
  | Tracking.Streaming _ _, none => (Tracking.Complete, TPoll.Finished)
  | Tracking.Streaming ids cache, some (Except.error e) =>
    (Tracking.Streaming ids cache,
     TPoll.Item (Except.error (TrackingError.Scan e)))
  | Tracking.Streaming ids cache, some (Except.ok (PlugEvent.Arrival port id)) =>
    match ids.find? (fun test => test == id) with
    | none => (Tracking.Streaming ids cache, TPoll.Continue)
    | some found =>
      match TrackedPort.track oneshotRes port found with
      | Except.error e =>
        (Tracking.Streaming ids cache,
         TPoll.Item (Except.error (TrackingError.Io e)))
      | Except.ok (sender, tracked) =>
        (Tracking.Streaming ids (cacheInsert cache port sender),
         TPoll.Item (Except.ok tracked))
  | Tracking.Streaming ids cache, some (Except.ok (PlugEvent.RemoveComplete port)) =>
    match cacheRemove cache port with
    | (none, cache2) => (Tracking.Streaming ids cache2, TPoll.Continue)
    | (some sender, cache2) =>
      match setRes sender with
      | Except.ok _ => (Tracking.Streaming ids cache2, TPoll.Continue)
      | Except.error e =>
        (Tracking.Streaming ids cache2,
         TPoll.Item (Except.error (TrackingError.Io e)))

/-- The shared event queue contents (SegQueue of
Option of ScanResult of PlugEvent in src/src/wm.rs); none is the
end-of-stream sentinel.  FIFO: pushes append at the right, pops take
the head. -/
abbrev Queue := List (Option (ScanResult PlugEvent))

/-- A GUID of a device-interface class, modelled as an opaque id. -/
abbrev GUID := Nat

/-- Registry from src/src/wm.rs: the list of device-interface class
GUIDs to register. -/
abbrev Registry := List GUID

/-- A device-notification registration handle (HDEVNOTIFY), opaque. -/
abbrev RegistrationHandle := Nat

/-- Registry::register from src/src/wm.rs: registers each GUID in
order, collecting the handles; the first OS failure aborts with that
error (collect into io::Result of Vec).  regRes gives each
RegisterDeviceNotificationW outcome. -/
def Registry.register (registry : Registry)
    (regRes : GUID → Except IoError RegistrationHandle) :
    Except IoError (List RegistrationHandle) :=
  registry.mapM regRes

/-- SharedQueue::with_events from src/src/wm.rs: seeds the queue with
one Ok item per event, in order. -/
def SharedQueue.with_events (events : List PlugEvent) : Queue :=
  events.map (fun ev => some (Except.ok ev))

/-- Result of one SharedQueue::poll_next. -/
inductive QPoll where
  | Pending
  | Ready (item : Option (ScanResult PlugEvent))
deriving DecidableEq, Repr

/-- SharedQueue::poll_next from src/src/wm.rs: pop the queue head; an
empty queue stores the caller's waker and returns Pending (the waker
bookkeeping has no effect on the item sequence and is not modelled);
some item is Ready(Some), the none sentinel is Ready(None). -/
def SharedQueue.poll_next : Queue → QPoll × Queue
  | [] => (QPoll.Pending, [])
  | some item :: rest => (QPoll.Ready (some item), rest)
  | none :: rest => (QPoll.Ready none, rest)

/-- Iterated polling: the result of the n-th poll after repeatedly
popping the queue. -/
def pollIter : Nat → Queue → QPoll × Queue
  | 0, q => SharedQueue.poll_next q
  | n + 1, q => pollIter n (SharedQueue.poll_next q).2

/-- WindowEvents from src/src/wm.rs: the consumer-facing stream; holds
the window name, the shared queue, and the dispatcher thread's join
handle (none once taken by close). -/
structure WindowEvents where
  window : String
  queue : Queue
  joinHandle : Option Unit
deriving DecidableEq, Repr

/-- Registry::spawn from src/src/wm.rs: takes a Directory snapshot
(hkey::scan(), whose outcome scanRes is an environment input), falls
back to an empty map on scan failure, seeds the queue with one Arrival
per snapshot entry, spawns the dispatcher thread, and returns
Ok(WindowEvents) — unconditionally: window creation and registration
happen later, on the dispatcher thread. -/
def Registry.spawn (scanRes : Except RegistryError (List (PortId × PortMeta)))
    (_registry : Registry) (name : String) : ScanResult WindowEvents :=
  let snapshot := match scanRes with
    | Except.ok m => m
    | Except.error _ => []
  let devices := snapshot.map (fun pm => PlugEvent.Arrival pm.1 pm.2)
  Except.ok { window := name,
              queue := SharedQueue.with_events devices,
              joinHandle := some () }

/-- The queue contents produced by seeding a snapshot: what
Registry::spawn builds by mapping the snapshot into Arrival events and
handing them to SharedQueue::with_events. -/
def seedQueue (snapshot : List (PortId × PortMeta)) : Queue :=
  snapshot.map (fun pm => some (Except.ok (PlugEvent.Arrival pm.1 pm.2)))

/-- A window message as seen by device_notification_window_proceedure
in src/src/wm.rs.  DeviceChange carries the parse_event outcome for the
broadcast (none when the broadcast is not a port arrival/removal);
User carries the hkey::scan() outcome of the rescan request. -/
inductive WinMsg where
  | DeviceChange (ev : Option (ScanResult PlugEvent))
  | Destroy
  | User (scanRes : Except RegistryError (List (PortId × PortMeta)))
  | Other
deriving Repr

/-- Queue effect of device_notification_window_proceedure
(src/src/wm.rs) for one message: WM_DEVICECHANGE pushes the parsed
event (Ok or Err) when parse_event yields one; WM_DESTROY pushes the
none sentinel; WM_USER pushes one Ok Arrival per entry of a successful
rescan snapshot and pushes nothing on a failed scan (the error is only
logged); other messages fall through to DefWindowProc. -/
def device_notification_window_proceedure (q : Queue) : WinMsg → Queue
  | WinMsg.DeviceChange (some ev) => q ++ [some ev]
  | WinMsg.DeviceChange none => q
  | WinMsg.Destroy => q ++ [none]
  | WinMsg.User (Except.ok m) =>
    q ++ m.map (fun pm => some (Except.ok (PlugEvent.Arrival pm.1 pm.2)))
  | WinMsg.User (Except.error _) => q
  | WinMsg.Other => q

/-- One GetMessageW outcome in the dispatcher loop of
device_notification_window_dispatcher (src/src/wm.rs).  WM_DESTROY is
a sent message, delivered to the procedure directly during
DestroyWindow, so it never appears as a retrieved message in a
realistic trace. -/
inductive LoopMsg where
  | GetMsgDone
  | GetMsgError (e : IoError)
  | Close
  | Dispatch (m : WinMsg)
deriving Repr

/-- The GetMessageW loop of device_notification_window_dispatcher
(src/src/wm.rs), run over a trace of GetMessageW outcomes: a 0 return
breaks Ok; a -1 return breaks with the OS error (the loop itself
pushes nothing for it); a WM_CLOSE message is dispatched —
DefWindowProc destroys the window, so the procedure runs with
WM_DESTROY and pushes the sentinel — then breaks Ok; any other message
is dispatched to the procedure and the loop continues.  Returns the
final queue, the loop's io::Result, and whether the window was
destroyed during the loop (only the WM_CLOSE arm destroys it). -/
def message_loop (q : Queue) :
    List LoopMsg → Queue × Except IoError Unit × Bool
  | [] => (q, Except.ok (), false)
  | LoopMsg.GetMsgDone :: _ => (q, Except.ok (), false)
  | LoopMsg.GetMsgError e :: _ => (q, Except.error e, false)
  | LoopMsg.Close :: _ =>
    (device_notification_window_proceedure q WinMsg.Destroy,
     Except.ok (), true)
  | LoopMsg.Dispatch m :: rest =>
    message_loop (device_notification_window_proceedure q m) rest

/-- device_notification_window_dispatcher from src/src/wm.rs: register
the window class, create the hidden window (createWindowRes is the
CreateWindowExW/SetWindowLongPtrW outcome), register each
device-interface class, then run the message loop over the trace of
GetMessageW outcomes.  A window-creation failure returns that error
with nothing enqueued (no live window was wrapped).  From then on the
hwnd RAII guard owns a live window whose GWLP_USERDATA points at the
queue: on every later exit — a registration failure, a GetMessageW
error, or a normal loop exit — dropping the guard calls DestroyWindow,
which runs the window procedure with WM_DESTROY and pushes the
end-of-stream sentinel, unless the window was already destroyed inside
the loop by the WM_CLOSE arm (then the drop's DestroyWindow acts on a
stale handle and does nothing). -/
def device_notification_window_dispatcher
    (createWindowRes : Except IoError Nat)
    (regRes : GUID → Except IoError RegistrationHandle)
    (registrations : Registry) (q : Queue) (msgs : List LoopMsg) :
    Queue × Except IoError Unit :=
  match createWindowRes with
  | Except.error e => (q, Except.error e)
  | Except.ok _hwnd =>
    match Registry.register registrations regRes with
    | Except.error e =>
      (device_notification_window_proceedure q WinMsg.Destroy,
       Except.error e)
    | Except.ok _handles =>
      let r := message_loop q msgs
      (if r.2.2 then r.1
       else device_notification_window_proceedure r.1 WinMsg.Destroy,
       r.2.1)

/-- Environment for one WindowEvents::close call: the FindWindowW
outcome, the PostMessageW outcome, and the join outcome (outer error:
the thread panicked, mapped to the "join error" io::Error; inner: the
dispatcher thread's own io::Result). -/
structure CloseEnv where
  findWindowRes : Except IoError Nat
  postMessageRes : Except IoError Unit
  joinRes : Except IoError (Except IoError Unit)
deriving Repr

/-- WindowEvents::close from src/src/wm.rs: find the window by name
(propagating the OS error when the lookup fails), post WM_CLOSE
(propagating the OS error on failure), take the join handle (an
"Already closed WindowEvents" error when it was already taken), then
join the thread and return its io::Result. -/
def WindowEvents.close (env : CloseEnv) (we : WindowEvents) :
    Except IoError Unit × WindowEvents :=
  match env.findWindowRes with
  | Except.error e => (Except.error e, we)
  | Except.ok _hwnd =>
    match env.postMessageRes with
    | Except.error e => (Except.error e, we)
    | Except.ok _ =>
      match we.joinHandle with
      | none =>
        (Except.error (IoError.mk "Already closed WindowEvents"), we)
      | some _ =>
        let result := match env.joinRes with
          | Except.error _ => Except.error (IoError.mk "join error")
          | Except.ok r => r
        (result, { we with joinHandle := none })

/-- One attempt of the regex pattern (vid_|pid_).{4} used by
PortMeta::parse_registry (src/src/hkey.rs) at the current position: a
literal lowercase vid_ or pid_ prefix followed by exactly 4 arbitrary
characters other than a newline (the default dot of the regex crate).
On success, returns the 4 characters after the prefix
(m.as_str()[4..] in the source); the whole match is 8 characters
long. -/
def matchToken : List Char → Option (List Char)
  | 'v' :: 'i' :: 'd' :: '_' :: c1 :: c2 :: c3 :: c4 :: _ =>
    if c1 ≠ '\n' ∧ c2 ≠ '\n' ∧ c3 ≠ '\n' ∧ c4 ≠ '\n' then
      some [c1, c2, c3, c4]
    else none
  | 'p' :: 'i' :: 'd' :: '_' :: c1 :: c2 :: c3 :: c4 :: _ =>
    if c1 ≠ '\n' ∧ c2 ≠ '\n' ∧ c3 ≠ '\n' ∧ c4 ≠ '\n' then
      some [c1, c2, c3, c4]
    else none
  | _ => none

/-- The position-by-position scan: while skip is positive the position
is still inside the previous match (matches are non-overlapping), so
advance without trying the pattern; at skip zero, a successful
lookahead records its capture and skips the remaining 7 characters of
the 8-character match, and a failed lookahead advances one position. -/
def findTokensGo : Nat → List Char → List (List Char)
  | _, [] => []
  | skip + 1, _ :: rest => findTokensGo skip rest
  | 0, c :: rest =>
    match matchToken (c :: rest) with
    | some cap => cap :: findTokensGo 7 rest
    | none => findTokensGo 0 rest

/-- All captures of find_iter over the whole character list. -/
def findTokens (s : List Char) : List (List Char) :=
  findTokensGo 0 s

/-- PortMeta::parse_registry from src/src/hkey.rs: collect the matches
of (vid_|pid_).{4}, then pop the last capture as product and the
second-to-last as vendor; fewer than two matches is None. -/
def PortMeta.parse_registry (s : String) : Option PortMeta :=
  match (findTokens s.data).reverse with
  | prodCap :: venCap :: _ =>
    some { vendor := String.mk venCap, product := String.mk prodCap }
  | _ => none

/-- The From impl for PortMeta over a (vid, pid) string pair
(src/src/hkey.rs): lower-case both strings, with no validation.  The
source's str::to_lowercase is modelled character-wise (the claims only
exercise ASCII data). -/
def PortMeta.fromPair (vid pid : String) : PortMeta :=
  { vendor := String.mk (vid.data.map Char.toLower),
    product := String.mk (pid.data.map Char.toLower) }

/-- ParseIntError from the signature of DeviceStreamExt::track; never
constructed by the source. -/
inductive ParseIntError where
  | mk
deriving DecidableEq, Repr

/-- DeviceStreamExt::track from src/src/lib.rs: map each (vid, pid)
pair through the PortMeta From impl and return the Streaming state with
an empty cache, always Ok (the declared ParseIntError is never
produced). -/
def DeviceStreamExt.track (ids : List (String × String)) :
    Except ParseIntError Tracking :=
  Except.ok (Tracking.Streaming
    (ids.map (fun vp => PortMeta.fromPair vp.1 vp.2)) [])

/-! Helper lemmas shared by the claim theorems. -/

/-- The window procedure only ever appends to the queue. -/
theorem proceedure_extends (q : Queue) (m : WinMsg) :
    ∃ t, device_notification_window_proceedure q m = q ++ t := by
  cases m with
  | DeviceChange ev =>
    cases ev with
    | none => exact ⟨[], by simp [device_notification_window_proceedure]⟩
    | some e => exact ⟨[some e], rfl⟩
  | Destroy => exact ⟨[none], rfl⟩
  | User s =>
    cases s with
    | ok m2 => exact ⟨_, rfl⟩
    | error e => exact ⟨[], by simp [device_notification_window_proceedure]⟩
  | Other => exact ⟨[], by simp [device_notification_window_proceedure]⟩

/-- The message loop only ever appends to the queue: whatever was
enqueued before the loop ran is still there, in front, afterwards. -/
theorem message_loop_extends (msgs : List LoopMsg) :
    ∀ q, ∃ t, (message_loop q msgs).1 = q ++ t := by
  induction msgs with
  | nil => intro q; exact ⟨[], by simp [message_loop]⟩
  | cons m rest ih =>
    intro q
    cases m with
    | GetMsgDone => exact ⟨[], by simp [message_loop]⟩
    | GetMsgError e => exact ⟨[], by simp [message_loop]⟩
    | Close =>
      exact ⟨[none], by
        simp [message_loop, device_notification_window_proceedure]⟩
    | Dispatch wm =>
      obtain ⟨t1, h1⟩ := proceedure_extends q wm
      obtain ⟨t2, h2⟩ := ih (device_notification_window_proceedure q wm)
      exact ⟨t1 ++ t2, by
        simp only [message_loop]
        rw [h2, h1, List.append_assoc]⟩

/-- C8: polling a terminal state is a guarded programming error: the
Tracking combinator panics when polled in the Complete state whatever
the environment and upstream item; an Unplugged future panics when
polled in the Complete state; resolving an Unplugged future moves it to
Complete, so polling it again after its single resolution panics and
can never return a second resolution value. -/
theorem terminal_poll_panics :
    (∀ (oneshotRes : Except IoError (Sender × Receiver))
       (setRes : Sender → Except IoError Unit)
       (item : Option (ScanResult PlugEvent)),
      Tracking.step oneshotRes setRes Tracking.Complete item
        = (Tracking.Complete, TPoll.Panic)) ∧
    (∀ recvRes : Option WaitResult,
      Unplugged.poll recvRes Unplugged.Complete
        = (Unplugged.Complete, UPoll.Panic)) ∧
    (∀ (inner : Receiver) (r : WaitResult),
      Unplugged.poll (some r) (Unplugged.Waiting inner)
        = (Unplugged.Complete, UPoll.Ready r)) ∧
    (∀ (inner : Receiver) (r : WaitResult) (recvRes2 : Option WaitResult),
      Unplugged.poll recvRes2
          (Unplugged.poll (some r) (Unplugged.Waiting inner)).1
        = (Unplugged.Complete, UPoll.Panic)) := by
  refine ⟨fun oneshotRes setRes item => rfl, fun recvRes => rfl,
    fun inner r => rfl, fun inner r recvRes2 => rfl⟩

/-- C10: DeviceStreamExt::track never fails: for every allow-list of
(vendorId, productId) string pairs it returns Ok of the Streaming state
whose allow-list is each pair lower-cased into a PortMeta with no
parsing or validation, and an empty cache; in particular it succeeds on
pairs that are not 4-digit hex values, so the declared ParseIntError is
unreachable. -/
theorem track_never_fails :
    (∀ ids : List (String × String),
      DeviceStreamExt.track ids
        = Except.ok (Tracking.Streaming
            (ids.map (fun vp => PortMeta.fromPair vp.1 vp.2)) [])) ∧
    (∀ ids : List (String × String),
      ∃ t, DeviceStreamExt.track ids = Except.ok t) ∧
    (DeviceStreamExt.track [("NOTHEX!", "WXYZ99")]
      = Except.ok (Tracking.Streaming
          [PortMeta.mk "nothex!" "wxyz99"] [])) := by
  refine ⟨fun ids => rfl, fun ids => ⟨_, rfl⟩, by decide⟩

/-- A successful pattern lookahead always captures exactly 4
characters, none of them a newline. -/
theorem matchToken_shape : ∀ (l cap : List Char),
    matchToken l = some cap → cap.length = 4 ∧ '\n' ∉ cap := by
  intro l cap h
  unfold matchToken at h
  split at h
  · split at h
    · rename_i hcond
      obtain ⟨h1, h2, h3, h4⟩ := hcond
      injection h with hcap
      subst hcap
      refine ⟨rfl, fun hm => ?_⟩
      simp only [List.mem_cons, List.not_mem_nil, or_false] at hm
      rcases hm with hm | hm | hm | hm
      exacts [h1 hm.symm, h2 hm.symm, h3 hm.symm, h4 hm.symm]
    · exact Option.noConfusion h
  · split at h
    · rename_i hcond
      obtain ⟨h1, h2, h3, h4⟩ := hcond
      injection h with hcap
      subst hcap
      refine ⟨rfl, fun hm => ?_⟩
      simp only [List.mem_cons, List.not_mem_nil, or_false] at hm
      rcases hm with hm | hm | hm | hm
      exacts [h1 hm.symm, h2 hm.symm, h3 hm.symm, h4 hm.symm]
    · exact Option.noConfusion h
  · exact Option.noConfusion h

/-- Every capture produced by the scan is exactly 4 non-newline
characters. -/
theorem findTokensGo_caps : ∀ (s : List Char) (skip : Nat) (cap : List Char),
    cap ∈ findTokensGo skip s → cap.length = 4 ∧ '\n' ∉ cap := by
  intro s
  induction s with
  | nil =>
    intro skip cap hc
    cases skip <;> simp [findTokensGo] at hc
  | cons c rest ih =>
    intro skip cap hc
    cases skip with
    | succ n => exact ih n cap hc
    | zero =>
      simp only [findTokensGo] at hc
      cases hmt : matchToken (c :: rest) with
      | none =>
        rw [hmt] at hc
        exact ih 0 cap hc
      | some cap2 =>
        rw [hmt] at hc
        rcases List.mem_cons.mp hc with rfl | hmem
        · exact matchToken_shape _ _ hmt
        · exact ih 7 cap hmem

/-- C9 counterexample: the descriptor parser is not the claimed
case-insensitive two-token 4-hex-digit parser.  A descriptor with two
vid_ tokens and no pid_ token parses successfully (a required token is
absent, yet no failure); an upper-case VID_/PID_ descriptor fails to
parse (matching is case-sensitive); non-hex characters are accepted;
captured letters are not lower-cased. -/
theorem parse_registry_counterexample :
    PortMeta.parse_registry "vid_1234&vid_5678"
      = some (PortMeta.mk "1234" "5678") ∧
    PortMeta.parse_registry "VID_2FE3&PID_0100" = none ∧
    PortMeta.parse_registry "vid_zzzz&pid_0100"
      = some (PortMeta.mk "zzzz" "0100") ∧
    PortMeta.parse_registry "vid_2FE3&pid_0100"
      = some (PortMeta.mk "2FE3" "0100") := by decide

/-- C9 amended: the descriptor is parsed by collecting all matches of
the case-sensitive pattern (vid_|pid_).{4} — a literal lowercase vid_
or pid_ followed by 4 arbitrary non-newline characters, with no hex
validation and no case normalisation; the last capture becomes product
and the second-to-last becomes vendor, regardless of which prefix
produced them; fewer than two matches is a parse failure. -/
theorem parse_registry_characterisation (s : String) :
    ((findTokens s.data).length < 2 → PortMeta.parse_registry s = none) ∧
    (∀ m, PortMeta.parse_registry s = some m →
      2 ≤ (findTokens s.data).length ∧
      ∃ rest, (findTokens s.data).reverse
        = m.product.data :: m.vendor.data :: rest) ∧
    (∀ cap ∈ findTokens s.data, cap.length = 4 ∧ '\n' ∉ cap) ∧
    (PortMeta.parse_registry "\\\\?\\usb#vid_2fe3&pid_0002&mi_00#7&123456"
      = some (PortMeta.mk "2fe3" "0002")) := by
  refine ⟨?_, ?_, ?_, by decide⟩
  · intro hlen
    cases hrev : (findTokens s.data).reverse with
    | nil => simp [PortMeta.parse_registry, hrev]
    | cons a t =>
      cases t with
      | nil => simp [PortMeta.parse_registry, hrev]
      | cons b t2 =>
        exfalso
        have hl := congrArg List.length hrev
        simp at hl
        omega
  · intro m hm
    unfold PortMeta.parse_registry at hm
    cases hrev : (findTokens s.data).reverse with
    | nil => simp [hrev] at hm
    | cons a t =>
      cases t with
      | nil => simp [hrev] at hm
      | cons b t2 =>
        rw [hrev] at hm
        injection hm with hm2
        subst hm2
        constructor
        · have hl := congrArg List.length hrev
          simp at hl
          omega
        · exact ⟨t2, rfl⟩
  · exact fun cap hcap => findTokensGo_caps s.data 0 cap hcap

/-- C9 witness: a descriptor with a single match is a parse failure. -/
theorem parse_registry_witness :
    PortMeta.parse_registry "vid_0a1b" = none :=
  (parse_registry_characterisation "vid_0a1b").1 (by decide)

/-- C4 counterexample: not every message-loop error is surfaced to the
consumer through the queue.  A failed Directory lookup during a rescan
request enqueues nothing (it is only logged); and an abnormal
message-loop termination (a GetMessageW error) never enqueues the OS
error — the error becomes the dispatcher thread's return value, and
the only thing pushed on that exit is the end-of-stream sentinel
(by the Window destructor), so the next queue read yields
end-of-stream, not an error item: no queue item carries the OS
error. -/
theorem loop_errors_not_queued :
    (message_loop []
        [LoopMsg.Dispatch (WinMsg.User (Except.error
          (RegistryError.Io (IoError.mk "scan failed"))))]).1 = [] ∧
    device_notification_window_dispatcher (Except.ok 1) (fun _ => Except.ok 0)
        [] [] [LoopMsg.GetMsgError (IoError.mk "GetMessageW failed")]
      = ([none], Except.error (IoError.mk "GetMessageW failed")) ∧
    SharedQueue.poll_next [none] = (QPoll.Ready none, []) ∧
    (some (Except.error (RegistryError.Io (IoError.mk "GetMessageW failed")))
        : Option (ScanResult PlugEvent)) ∉ ([none] : Queue) := by decide

/-- C4 amended: a device-arrival translation error is enqueued as an
error item and the loop continues with subsequent messages; a failed
Directory lookup during a rescan request enqueues nothing and the loop
continues; an abnormal message-loop termination returns the OS error
as the dispatcher thread's result (surfaced at join, never as a queue
item) while the Window destructor pushes the end-of-stream sentinel,
so the next queue read reaches end-of-stream instead of an error item;
and the loop never removes anything already enqueued. -/
theorem message_loop_error_surfacing
    (q : Queue) (e : RegistryError) (osErr : IoError)
    (rest msgs : List LoopMsg) (hwnd : Nat)
    (regRes : GUID → Except IoError RegistrationHandle)
    (registry : Registry) :
    (message_loop q
        (LoopMsg.Dispatch (WinMsg.DeviceChange (some (Except.error e))) :: rest)
      = message_loop (q ++ [some (Except.error e)]) rest) ∧
    (message_loop q (LoopMsg.Dispatch (WinMsg.User (Except.error e)) :: rest)
      = message_loop q rest) ∧
    (message_loop q (LoopMsg.GetMsgError osErr :: rest)
      = (q, Except.error osErr, false)) ∧
    (∀ handles, Registry.register registry regRes = Except.ok handles →
      device_notification_window_dispatcher (Except.ok hwnd) regRes registry q
          (LoopMsg.GetMsgError osErr :: rest)
        = (q ++ [none], Except.error osErr)) ∧
    (∃ t, (message_loop q msgs).1 = q ++ t) := by
  refine ⟨rfl, rfl, rfl, ?_, message_loop_extends msgs q⟩
  intro handles h
  simp [device_notification_window_dispatcher, h, message_loop,
    device_notification_window_proceedure]

/-- C4 amended witness: a concrete abnormal termination pushes only
the sentinel and returns the OS error as the thread result. -/
theorem message_loop_error_surfacing_witness :
    device_notification_window_dispatcher (Except.ok 1) (fun _ => Except.ok 0)
        [] [] [LoopMsg.GetMsgError (IoError.mk "boom")]
      = ([none], Except.error (IoError.mk "boom")) :=
  (message_loop_error_surfacing [] (RegistryError.Io (IoError.mk "x"))
    (IoError.mk "boom") [] [] 1 (fun _ => Except.ok 0) []).2.2.2.1 [] rfl

/-- C3 counterexample: listen does not fail when hidden-window creation
or a device-interface registration fails.  Registry::spawn returns
Ok(WindowEvents) unconditionally; the window-creation and registration
failures happen on the dispatcher thread, which returns them as the
thread's result — a stream object has already been handed to the
caller.  On a registration failure the Window RAII drop destroys the
live window, pushing the end-of-stream sentinel. -/
theorem spawn_ok_despite_failure :
    Registry.spawn (Except.ok []) [0] "listener"
      = Except.ok (WindowEvents.mk "listener" [] (some ())) ∧
    device_notification_window_dispatcher
        (Except.error (IoError.mk "CreateWindowExW failed"))
        (fun _ => Except.ok 0) [0] [] []
      = ([], Except.error (IoError.mk "CreateWindowExW failed")) ∧
    device_notification_window_dispatcher (Except.ok 1)
        (fun _ => Except.error (IoError.mk "RegisterDeviceNotificationW failed"))
        [0] [] []
      = ([none],
         Except.error (IoError.mk "RegisterDeviceNotificationW failed")) := by
  refine ⟨rfl, rfl, rfl⟩

/-- C3 amended: Registry::spawn (hence listen) always returns
Ok(WindowEvents), whatever the snapshot outcome; window creation and
registration happen on the dispatcher thread, and a failure of either
is returned as that thread's result (surfaced at join/close).  A
window-creation failure enqueues nothing; a registration failure
destroys the already-created window via the RAII drop, pushing the
end-of-stream sentinel. -/
theorem spawn_always_ok
    (scanRes : Except RegistryError (List (PortId × PortMeta)))
    (registry : Registry) (name : String)
    (createRes : Except IoError Nat)
    (regRes : GUID → Except IoError RegistrationHandle)
    (q : Queue) (msgs : List LoopMsg) :
    (∃ we, Registry.spawn scanRes registry name = Except.ok we) ∧
    (∀ e, createRes = Except.error e →
      device_notification_window_dispatcher createRes regRes registry q msgs
        = (q, Except.error e)) ∧
    (∀ n e, createRes = Except.ok n →
      Registry.register registry regRes = Except.error e →
      device_notification_window_dispatcher createRes regRes registry q msgs
        = (q ++ [none], Except.error e)) := by
  refine ⟨⟨_, rfl⟩, ?_, ?_⟩
  · intro e h
    simp [device_notification_window_dispatcher, h]
  · intro n e h1 h2
    simp [device_notification_window_dispatcher, h1, h2,
      device_notification_window_proceedure]

/-- C3 amended witness: a concrete window-creation failure is returned
by the dispatcher thread while spawn still returned a stream. -/
theorem spawn_always_ok_witness :
    device_notification_window_dispatcher
        (Except.error (IoError.mk "boom")) (fun _ => Except.ok 0) [] [] []
      = ([], Except.error (IoError.mk "boom")) :=
  (spawn_always_ok (Except.ok []) [] "w" (Except.error (IoError.mk "boom"))
    (fun _ => Except.ok 0) [] []).2.1 (IoError.mk "boom") rfl

/-- C5: starting a listener on a successful Directory snapshot seeds
the queue with exactly one Ok Arrival per snapshot entry, in snapshot
order, carrying that entry's port name and metadata; and since the
message loop only appends, every seeded Arrival precedes any live OS
event in the queue. -/
theorem snapshot_seeding
    (snapshot : List (PortId × PortMeta)) (registry : Registry)
    (name : String) :
    (Registry.spawn (Except.ok snapshot) registry name
      = Except.ok (WindowEvents.mk name (seedQueue snapshot) (some ()))) ∧
    ((seedQueue snapshot).length = snapshot.length) ∧
    (∀ i : Nat, (seedQueue snapshot).get? i
      = (snapshot.get? i).map
          (fun pm => some (Except.ok (PlugEvent.Arrival pm.1 pm.2)))) ∧
    (∀ msgs : List LoopMsg, ∃ live,
      (message_loop (seedQueue snapshot) msgs).1
        = seedQueue snapshot ++ live) := by
  refine ⟨?_, by simp [seedQueue], ?_, fun msgs => message_loop_extends msgs _⟩
  · simp [Registry.spawn, SharedQueue.with_events, seedQueue, List.map_map]
  · intro i
    simp [seedQueue]

/-- C7: once the end-of-stream sentinel has been yielded the sequence
has ended permanently.  When the sentinel is the last element ever
pushed (as the dispatcher guarantees: it pushes the sentinel from
WM_DESTROY and then exits), a poll that returns Ready(None) leaves an
empty queue, and every subsequent poll — however often the stream is
re-polled — returns Pending, never another item. -/
theorem sentinel_terminal (q rest : Queue)
    (hlast : Option.none ∉ q.dropLast)
    (hpoll : SharedQueue.poll_next q = (QPoll.Ready none, rest)) :
    rest = [] ∧ ∀ n, pollIter n rest = (QPoll.Pending, []) := by
  have hq : q = none :: rest := by
    cases q with
    | nil => simp [SharedQueue.poll_next] at hpoll
    | cons a t =>
      cases a with
      | none =>
        simp [SharedQueue.poll_next] at hpoll
        rw [hpoll]
      | some it => simp [SharedQueue.poll_next] at hpoll
  subst hq
  have hrest : rest = [] := by
    cases rest with
    | nil => rfl
    | cons b t2 =>
      exfalso
      exact hlast (by simp [List.dropLast])
  subst hrest
  refine ⟨rfl, fun n => ?_⟩
  induction n with
  | zero => rfl
  | succ k ihk => exact ihk

/-- C7 witness: a queue holding only the sentinel, once polled to
end-of-stream, keeps answering Pending on re-polls. -/
theorem sentinel_terminal_witness :
    pollIter 2 ([] : Queue) = (QPoll.Pending, []) := by
  have h := sentinel_terminal [none] [] (by decide) (by decide)
  exact h.2 2

/-- C1: an Arrival processed in the Streaming state is matched against
the allow-list: no match yields nothing (Continue) and leaves the
state, cache included, unchanged; a match (with the oneshot allocation
succeeding and yielding the pair (sen, recv)) inserts (port, sen) into
the cache — replacing any prior Sender for that port, so the cache
holds exactly one entry for that port and keeps at most one entry per
port — and emits Ok(TrackedPort) carrying the port, the matched
metadata and the Receiver-backed unplugged future.  The last two
conjuncts are the concrete allow-list [("2fe3","0100")] instances. -/
theorem tracking_arrival
    (ids : List PortMeta) (cache : Cache) (port : PortId) (meta : PortMeta)
    (sen : Sender) (recv : Receiver)
    (setRes : Sender → Except IoError Unit) :
    (ids.find? (fun test => test == meta) = none →
      Tracking.step (Except.ok (sen, recv)) setRes
          (Tracking.Streaming ids cache)
          (some (Except.ok (PlugEvent.Arrival port meta)))
        = (Tracking.Streaming ids cache, TPoll.Continue)) ∧
    (∀ found, ids.find? (fun test => test == meta) = some found →
      Tracking.step (Except.ok (sen, recv)) setRes
          (Tracking.Streaming ids cache)
          (some (Except.ok (PlugEvent.Arrival port meta)))
        = (Tracking.Streaming ids (cacheInsert cache port sen),
           TPoll.Item (Except.ok
             (TrackedPort.mk port found (Unplugged.Waiting recv))))) ∧
    ((cacheInsert cache port sen).filter (fun p => p.1 = port)
      = [(port, sen)]) ∧
    ((cache.map Prod.fst).Nodup →
      ((cacheInsert cache port sen).map Prod.fst).Nodup) ∧
    (Tracking.step (Except.ok (sen, recv)) setRes
        (Tracking.Streaming [PortMeta.mk "2fe3" "0100"] cache)
        (some (Except.ok (PlugEvent.Arrival port (PortMeta.mk "2fe3" "0100"))))
      = (Tracking.Streaming [PortMeta.mk "2fe3" "0100"]
           (cacheInsert cache port sen),
         TPoll.Item (Except.ok (TrackedPort.mk port
           (PortMeta.mk "2fe3" "0100") (Unplugged.Waiting recv))))) ∧
    (Tracking.step (Except.ok (sen, recv)) setRes
        (Tracking.Streaming [PortMeta.mk "2fe3" "0100"] cache)
        (some (Except.ok (PlugEvent.Arrival port (PortMeta.mk "1234" "5678"))))
      = (Tracking.Streaming [PortMeta.mk "2fe3" "0100"] cache,
         TPoll.Continue)) := by
  have hsub : ∀ l : Cache,
      (l.filter (fun p => p.1 ≠ port)).filter (fun p => p.1 = port) = [] := by
    intro l
    induction l with
    | nil => rfl
    | cons x xs ihx =>
      by_cases hx : x.1 = port
      · simp [List.filter_cons, hx, ihx]
      · simp [List.filter_cons, hx, ihx]
  refine ⟨?_, ?_, ?_, ?_, ?_, ?_⟩
  · intro hf
    simp [Tracking.step, hf]
  · intro found hf
    simp [Tracking.step, hf, TrackedPort.track]
  · simp [cacheInsert, List.filter_cons, hsub]
  · intro h
    simp only [cacheInsert, List.map_cons, List.nodup_cons]
    refine ⟨?_, ?_⟩
    · intro hmem
      obtain ⟨p, hp, hp2⟩ := List.mem_map.mp hmem
      have hne := List.of_mem_filter hp
      simp at hne
      exact hne hp2
    · exact List.Nodup.sublist
        (List.Sublist.map Prod.fst (List.filter_sublist cache)) h
  · rfl
  · rfl

/-- C1 witness: the concrete matching Arrival from the empty cache. -/
theorem tracking_arrival_witness :
    Tracking.step (Except.ok (3, 4)) (fun _ => Except.ok ())
        (Tracking.Streaming [PortMeta.mk "2fe3" "0100"] [])
        (some (Except.ok
          (PlugEvent.Arrival "COM4" (PortMeta.mk "2fe3" "0100"))))
      = (Tracking.Streaming [PortMeta.mk "2fe3" "0100"] [("COM4", 3)],
         TPoll.Item (Except.ok (TrackedPort.mk "COM4"
           (PortMeta.mk "2fe3" "0100") (Unplugged.Waiting 4)))) := by
  have h := (tracking_arrival [PortMeta.mk "2fe3" "0100"] [] "COM4"
    (PortMeta.mk "2fe3" "0100") 3 4 (fun _ => Except.ok ())).2.1
    (PortMeta.mk "2fe3" "0100") (by decide)
  exact h

/-- C2: a Removal processed in the Streaming state always removes the
port's entry from the cache and keeps the state Streaming (the stream
continues); when no entry was present the combinator emits no item and
no error (Continue); when an entry was present, Sender::set is called
on it — Ok continues silently, and a set failure is emitted downstream
as a stream error item. -/
theorem tracking_removal
    (ids : List PortMeta) (cache : Cache) (port : PortId)
    (oneshotRes : Except IoError (Sender × Receiver))
    (setRes : Sender → Except IoError Unit) :
    ((Tracking.step oneshotRes setRes (Tracking.Streaming ids cache)
        (some (Except.ok (PlugEvent.RemoveComplete port)))).1
      = Tracking.Streaming ids (cache.filter (fun p => p.1 ≠ port))) ∧
    (cache.find? (fun p => p.1 = port) = none →
      Tracking.step oneshotRes setRes (Tracking.Streaming ids cache)
          (some (Except.ok (PlugEvent.RemoveComplete port)))
        = (Tracking.Streaming ids (cache.filter (fun p => p.1 ≠ port)),
           TPoll.Continue)) ∧
    (∀ pr, cache.find? (fun p => p.1 = port) = some pr →
      setRes pr.2 = Except.ok () →
      Tracking.step oneshotRes setRes (Tracking.Streaming ids cache)
          (some (Except.ok (PlugEvent.RemoveComplete port)))
        = (Tracking.Streaming ids (cache.filter (fun p => p.1 ≠ port)),
           TPoll.Continue)) ∧
    (∀ pr e, cache.find? (fun p => p.1 = port) = some pr →
      setRes pr.2 = Except.error e →
      Tracking.step oneshotRes setRes (Tracking.Streaming ids cache)
          (some (Except.ok (PlugEvent.RemoveComplete port)))
        = (Tracking.Streaming ids (cache.filter (fun p => p.1 ≠ port)),
           TPoll.Item (Except.error (TrackingError.Io e)))) := by
  refine ⟨?_, ?_, ?_, ?_⟩
  · cases hf : cache.find? (fun p => p.1 = port) with
    | none => simp [Tracking.step, cacheRemove, hf]
    | some pr =>
      cases hs : setRes pr.2 with
      | ok u =>
        cases u
        simp [Tracking.step, cacheRemove, hf, hs]
      | error e => simp [Tracking.step, cacheRemove, hf, hs]
  · intro hf
    simp [Tracking.step, cacheRemove, hf]
  · intro pr hf hs
    simp [Tracking.step, cacheRemove, hf, hs]
  · intro pr e hf hs
    simp [Tracking.step, cacheRemove, hf, hs]

/-- C2 witness: removing a tracked port whose Sender::set fails emits
the failure as a stream error item, with the entry removed. -/
theorem tracking_removal_witness :
    Tracking.step (Except.ok (9, 10))
        (fun _ => Except.error (IoError.mk "set failed"))
        (Tracking.Streaming [] [("COM7", 5)])
        (some (Except.ok (PlugEvent.RemoveComplete "COM7")))
      = (Tracking.Streaming [] [],
         TPoll.Item (Except.error
           (TrackingError.Io (IoError.mk "set failed")))) := by
  have h := (tracking_removal [] [("COM7", 5)] "COM7" (Except.ok (9, 10))
    (fun _ => Except.error (IoError.mk "set failed"))).2.2.2 ("COM7", 5)
    (IoError.mk "set failed") (by decide) rfl
  exact h

/-- C6 counterexample: close is not idempotent and does not report
AlreadyClosed on a second call.  After a first successful close the
hidden window has been destroyed, so the second call's FindWindowW
lookup fails and close returns that unrelated OS error — neither
success nor the "Already closed WindowEvents" condition. -/
theorem close_not_idempotent :
    WindowEvents.close
        (CloseEnv.mk (Except.ok 42) (Except.ok ())
          (Except.ok (Except.ok ())))
        (WindowEvents.mk "w" [] (some ()))
      = (Except.ok (), WindowEvents.mk "w" [] none) ∧
    WindowEvents.close
        (CloseEnv.mk (Except.error (IoError.mk "cannot find window"))
          (Except.ok ()) (Except.ok (Except.ok ())))
        (WindowEvents.mk "w" [] none)
      = (Except.error (IoError.mk "cannot find window"),
         WindowEvents.mk "w" [] none) ∧
    IoError.mk "cannot find window"
      ≠ IoError.mk "Already closed WindowEvents" := by decide

/-- C6 amended: a close whose window lookup fails returns that OS error
unchanged (the path a second close takes, the window being gone); the
distinct "Already closed WindowEvents" error is reported only when the
lookup and post succeed but the join handle was already taken; a close
that reaches the join consumes the join handle; and close can only
return success having taken and joined the handle — so by the time a
successful close returns, the dispatcher thread has been joined. -/
theorem close_behaviour (env : CloseEnv) (we : WindowEvents) :
    (∀ e, env.findWindowRes = Except.error e →
      WindowEvents.close env we = (Except.error e, we)) ∧
    (∀ hwnd, env.findWindowRes = Except.ok hwnd →
      env.postMessageRes = Except.ok () → we.joinHandle = none →
      WindowEvents.close env we
        = (Except.error (IoError.mk "Already closed WindowEvents"), we)) ∧
    (∀ hwnd, env.findWindowRes = Except.ok hwnd →
      env.postMessageRes = Except.ok () → we.joinHandle = some () →
      (WindowEvents.close env we).2.joinHandle = none) ∧
    ((WindowEvents.close env we).1 = Except.ok () →
      (WindowEvents.close env we).2.joinHandle = none
        ∧ we.joinHandle = some ()) := by
  obtain ⟨fw, pm, jr⟩ := env
  obtain ⟨w, q, jh⟩ := we
  refine ⟨?_, ?_, ?_, ?_⟩
  · intro e h
    cases h
    rfl
  · intro hwnd h1 h2 h3
    cases h1
    cases h2
    cases h3
    rfl
  · intro hwnd h1 h2 h3
    cases h1
    cases h2
    cases h3
    rfl
  · intro hok
    cases fw with
    | error e => simp [WindowEvents.close] at hok
    | ok hwnd =>
      cases pm with
      | error e => simp [WindowEvents.close] at hok
      | ok u =>
        cases u
        cases jh with
        | none => simp [WindowEvents.close] at hok
        | some u2 =>
          cases u2
          exact ⟨rfl, rfl⟩

/-- C6 amended witness: a second close, the window gone, returns the
window-lookup OS error. -/
theorem close_behaviour_witness :
    WindowEvents.close
        (CloseEnv.mk (Except.error (IoError.mk "cannot find window"))
          (Except.ok ()) (Except.ok (Except.ok ())))
        (WindowEvents.mk "w" [] none)
      = (Except.error (IoError.mk "cannot find window"),
         WindowEvents.mk "w" [] none) :=
  (close_behaviour
    (CloseEnv.mk (Except.error (IoError.mk "cannot find window"))
      (Except.ok ()) (Except.ok (Except.ok ())))
    (WindowEvents.mk "w" [] none)).1 (IoError.mk "cannot find window") rfl

end Comport
